import Mathlib

/-!
# SKSE plugin template (`templates/skse/basic/src/main.cpp`)

A shallow embedding of the template's event sinks, handle resolvers, lifecycle
dispatcher and load entry point.

The module keeps no variable of its own: everything it does is a call into the
host (CommonLibSSE-NG / SKSE) or a line written to the log.  The embedding
therefore threads one value, the `World`: the ordered trace of every host call
and log line made so far.  The answers of the host are read from a `Host`
record.  Pointers, handles and form identifiers are natural numbers; a null
pointer is `none`.
-/

namespace SKSETemplate

/-! ## Data model -/

/-- Severity of a log line: `SKSE::log::info`, `SKSE::log::warn`, `SKSE::log::error`. -/
inductive Level where
  | info
  | warn
  | error
  deriving DecidableEq, Repr

/-- One line of the diagnostic log. -/
structure LogEntry where
  level : Level
  text : String
  deriving DecidableEq, Repr

/-- The two event sinks of the template, named by their class. -/
inductive Sink where
  | OnHitEventHandler
  | OnEquipEventHandler
  deriving DecidableEq, Repr

/-- Control value an event sink hands back to the host (`RE::BSEventNotifyControl`). -/
inductive BSEventNotifyControl where
  | kContinue
  | kStop
  deriving DecidableEq, Repr

/-- One interaction of the module with the outside, in the order the source makes them. -/
inductive Effect where
  /-- The call `SKSE::log::<level>(text)`. -/
  | log (level : Level) (text : String)
  /-- The call `scriptEventSource->AddEventSink<...>(sink)`. -/
  | addEventSink (sink : Sink)
  /-- The call `messaging->RegisterListener(MessageHandler)`. -/
  | registerListener
  /-- The call `SKSE::Init(skse, false)`. -/
  | init
  /-- The call `SKSE::GetMessagingInterface()`. -/
  | getMessagingInterface
  /-- The call `RE::ScriptEventSourceHolder::GetSingleton()`. -/
  | getScriptEventSource
  /-- The call `event->target.get()` or `event->cause.get()` on the given handle. -/
  | handleGet (handle : Nat)
  /-- The call `ref->As<RE::Actor>()`. -/
  | asActor (ref : Nat)
  /-- The call `obj->GetName()`. -/
  | getName (obj : Nat)
  /-- The call `actor->IsDead()`. -/
  | isDead (actor : Nat)
  /-- The call `RE::TESForm::LookupByID(formID)`. -/
  | lookupByID (formID : Nat)
  /-- The call `RE::TESForm::LookupByID<RE::Actor>(formID)`. -/
  | lookupActorByID (formID : Nat)
  /-- The call `RE::TESForm::LookupByEditorID(editorID)`. -/
  | lookupByEditorID (editorID : String)
  /-- The call `RE::PlayerCharacter::GetSingleton()`. -/
  | getPlayerSingleton
  deriving DecidableEq, Repr

/-- The trace of everything the module has done so far, oldest first. -/
abbrev World := List Effect

/-- What the host answers to the module's calls.  The headers that declare these
functions are not part of the repository, so their results are parameters. -/
structure Host where
  /-- The call `SKSE::GetMessagingInterface()`: `none` when the interface is unavailable,
  `some r` when it is there and `RegisterListener` answers `r`. -/
  messagingInterface : Option Bool
  /-- Whether `RE::ScriptEventSourceHolder::GetSingleton()` is non-null. -/
  scriptEventSource : Bool
  /-- The call `handle.get()`: the reference a handle resolves to, if any. -/
  handleGet : Nat → Option Nat
  /-- The call `ref->As<RE::Actor>()`: the actor a reference is, if it is one. -/
  asActor : Nat → Option Nat
  /-- The call `obj->GetName()`. -/
  getName : Nat → String
  /-- The call `actor->IsDead()`. -/
  isDead : Nat → Bool
  /-- The call `RE::TESForm::LookupByID(formID)`. -/
  lookupByID : Nat → Option Nat
  /-- The call `RE::TESForm::LookupByID<RE::Actor>(formID)`. -/
  lookupActorByID : Nat → Option Nat
  /-- The call `RE::TESForm::LookupByEditorID(editorID)`. -/
  lookupByEditorID : String → Option Nat
  /-- The call `RE::PlayerCharacter::GetSingleton()`. -/
  player : Option Nat

/-- A hit event record, `RE::TESHitEvent`, as the template reads it.  The type `D`
of `damageAmount` is declared in the host's headers. -/
structure TESHitEvent (D : Type) where
  target : Nat
  cause : Nat
  damageAmount : D

/-- An equip event record, `RE::TESEquipEvent`, as the template reads it. -/
structure TESEquipEvent where
  actor : Nat
  baseObject : Nat
  equipped : Bool

/-- The enumerators of `SKSE::MessagingInterface` the dispatcher switches on.
Their values are declared in the host's headers, so they are parameters. -/
structure MessageType where
  kDataLoaded : Nat
  kPostLoad : Nat
  kPreLoadGame : Nat
  kPostLoadGame : Nat
  kNewGame : Nat
  kPostPostLoad : Nat

/-- The build-time strings of `PCH.h` (template placeholders). -/
structure PluginStrings where
  PLUGIN_NAME : String
  PLUGIN_VERSION : String
  PLUGIN_AUTHOR : String

/-! ## Logging and formatting -/

/-- Append one effect to the trace. -/
def emit (e : Effect) (w : World) : World := w ++ [e]

/-- The call `SKSE::log::info`. -/
def log.info (text : String) (w : World) : World := emit (.log .info text) w

/-- The call `SKSE::log::warn`. -/
def log.warn (text : String) (w : World) : World := emit (.log .warn text) w

/-- The call `SKSE::log::error`. -/
def log.error (text : String) (w : World) : World := emit (.log .error text) w

/-- One upper-case hexadecimal digit. -/
def hexDigitUpper (d : Nat) : Char :=
  if d < 10 then Char.ofNat (48 + d) else Char.ofNat (55 + d)

/-- The digits of `n` in base 16, most significant first, pushed in front of `acc`. -/
def hexUpperCore : Nat → Nat → List Char → List Char
  | 0, _, acc => acc
  | fuel + 1, n, acc =>
    if n / 16 = 0 then hexDigitUpper (n % 16) :: acc
    else hexUpperCore fuel (n / 16) (hexDigitUpper (n % 16) :: acc)

/-- The format `{:X}`: upper-case hexadecimal, no padding. -/
def fmtUpperHex (n : Nat) : List Char := hexUpperCore (n + 1) n []

/-- The format `{:08X}`: upper-case hexadecimal, padded on the left with `0` to
at least eight characters. -/
def fmt08X (n : Nat) : String := String.mk (List.leftpad 8 '0' (fmtUpperHex n))

/-- Value of a hexadecimal digit character (used to read a rendered number back). -/
def hexValue (c : Char) : Nat :=
  if c.toNat < 58 then c.toNat - 48 else c.toNat - 55

/-- Read a string of hexadecimal digits as a number. -/
def parseHex (cs : List Char) : Nat := cs.foldl (fun a c => a * 16 + hexValue c) 0

/-- Whether a character is one of `0123456789ABCDEF`. -/
def isUpperHexDigit (c : Char) : Bool :=
  (48 ≤ c.toNat && c.toNat ≤ 57) || (65 ≤ c.toNat && c.toNat ≤ 70)

/-! ## Projections of the trace -/

/-- The log lines of a trace, in order. -/
def logOf (w : World) : List LogEntry :=
  w.filterMap fun e =>
    match e with
    | .log level text => some ⟨level, text⟩
    | _ => none

/-- How many `AddEventSink` calls a trace holds for the given sink. -/
def sinkRegistrations (s : Sink) (w : World) : Nat := w.count (.addEventSink s)

/-- How many `AddEventSink` calls a trace holds, for any sink. -/
def registeredSinks (w : World) : Nat :=
  sinkRegistrations .OnHitEventHandler w + sinkRegistrations .OnEquipEventHandler w

/-- How many `RegisterListener` calls a trace holds. -/
def listenerRegistrations (w : World) : Nat := w.count .registerListener

/-- How many log lines of the given level a trace holds. -/
def levelCount (level : Level) (w : World) : Nat :=
  (logOf w).countP (fun entry => entry.level = level)

/-- Whether an effect is a query on an object: a name lookup or a dead check. -/
def isActorQuery : Effect → Bool
  | .getName _ => true
  | .isDead _ => true
  | _ => false

/-- Whether an effect is an untyped `LookupByID` call. -/
def isLookupByID : Effect → Bool
  | .lookupByID _ => true
  | _ => false

/-! ## Event sinks -/

/-- The method `OnHitEventHandler::ProcessEvent` (main.cpp, lines 51-94).  `event = none` is
the null record; `fmtDamage` is the `{}` rendering of the damage amount.  The
two `GetName` arguments of the log call are traced left to right. -/
def OnHitEventHandler.ProcessEvent {D : Type} (host : Host) (fmtDamage : D → String)
    (event : Option (TESHitEvent D)) (w : World) : BSEventNotifyControl × World :=
  match event with
  | none => (.kContinue, w)
  | some ev =>
    let w := emit (.handleGet ev.target) w
    match host.handleGet ev.target with
    | none => (.kContinue, w)
    | some target =>
      let w := emit (.asActor target) w
      match host.asActor target with
      | none => (.kContinue, w)
      | some targetActor =>
        let w := emit (.handleGet ev.cause) w
        match host.handleGet ev.cause with
        | none => (.kContinue, w)
        | some aggressor =>
          let w := emit (.asActor aggressor) w
          match host.asActor aggressor with
          | none => (.kContinue, w)
          | some aggressorActor =>
            let w := emit (.getName aggressorActor) w
            let w := emit (.getName targetActor) w
            let w := log.info ("OnHit: " ++ host.getName aggressorActor ++ " hit "
              ++ host.getName targetActor ++ " for " ++ fmtDamage ev.damageAmount
              ++ " damage") w
            let w := emit (.isDead targetActor) w
            if host.isDead targetActor then
              let w := emit (.getName targetActor) w
              let w := log.info (host.getName targetActor ++ " is dead") w
              (.kContinue, w)
            else
              (.kContinue, w)

/-- The method `OnEquipEventHandler::ProcessEvent` (main.cpp, lines 116-143). -/
def OnEquipEventHandler.ProcessEvent (host : Host) (event : Option TESEquipEvent)
    (w : World) : BSEventNotifyControl × World :=
  match event with
  | none => (.kContinue, w)
  | some ev =>
    let w := emit (.lookupActorByID ev.actor) w
    match host.lookupActorByID ev.actor with
    | none => (.kContinue, w)
    | some actor =>
      let w := emit (.lookupByID ev.baseObject) w
      match host.lookupByID ev.baseObject with
      | none => (.kContinue, w)
      | some item =>
        let w := emit (.getName actor) w
        let w := emit (.getName item) w
        let w := log.info (host.getName actor ++ " "
          ++ (if ev.equipped then "equipped" else "unequipped") ++ " "
          ++ host.getName item) w
        (.kContinue, w)

/-! ## Helper functions -/

/-- The function `LookupFormByEditorID` (main.cpp, lines 160-167). -/
def LookupFormByEditorID (host : Host) (editorID : String) (w : World) :
    Option Nat × World :=
  let w := emit (.lookupByEditorID editorID) w
  match host.lookupByEditorID editorID with
  | none => (none, log.warn ("Form not found: " ++ editorID) w)
  | some form => (some form, w)

/-- The function `LookupFormByID` (main.cpp, lines 170-177).  `formID` is a `RE::FormID`, an
unsigned 32-bit integer. -/
def LookupFormByID (host : Host) (formID : Nat) (w : World) : Option Nat × World :=
  let w := emit (.lookupByID formID) w
  match host.lookupByID formID with
  | none => (none, log.warn ("Form not found: " ++ fmt08X formID) w)
  | some form => (some form, w)

/-- The function `GetPlayer` (main.cpp, lines 180-187). -/
def GetPlayer (host : Host) (w : World) : Option Nat × World :=
  let w := emit .getPlayerSingleton w
  match host.player with
  | none => (none, log.error "Failed to get player character" w)
  | some player => (some player, w)

/-! ## Plugin initialization -/

/-- The function `InitializeEventHandlers` (main.cpp, lines 206-219). -/
def InitializeEventHandlers (host : Host) (w : World) : World :=
  let w := emit .getScriptEventSource w
  if host.scriptEventSource then
    let w := emit (.addEventSink .OnHitEventHandler) w
    let w := log.info "Registered OnHit event handler" w
    let w := emit (.addEventSink .OnEquipEventHandler) w
    log.info "Registered OnEquip event handler" w
  else
    log.error "Failed to get ScriptEventSourceHolder" w

/-- The function `MessageHandler` (main.cpp, lines 221-249): a `switch` on `message->type`
with six cases and no `default`. -/
def MessageHandler (K : MessageType) (host : Host) (type : Nat) (w : World) : World :=
  if type = K.kDataLoaded then
    InitializeEventHandlers host (log.info "Data loaded event received" w)
  else if type = K.kPostLoad then
    log.info "Post load event received" w
  else if type = K.kPreLoadGame then
    log.info "Pre load game event received" w
  else if type = K.kPostLoadGame then
    log.info "Post load game event received" w
  else if type = K.kNewGame then
    log.info "New game event received" w
  else if type = K.kPostPostLoad then
    log.info "Post post load event received" w
  else
    w

/-- The six message kinds `MessageHandler` has a case for. -/
def knownKinds (K : MessageType) : List Nat :=
  [K.kDataLoaded, K.kPostLoad, K.kPreLoadGame, K.kPostLoadGame, K.kNewGame, K.kPostPostLoad]

/-- The host delivering a sequence of lifecycle messages, one `MessageHandler`
call each, in order. -/
def deliver (K : MessageType) (host : Host) (messages : List Nat) (w : World) : World :=
  messages.foldl (fun w type => MessageHandler K host type w) w

/-- The function `SKSEPlugin_Load` (main.cpp, lines 255-274). -/
def SKSEPlugin_Load (cfg : PluginStrings) (host : Host) (w : World) : Bool × World :=
  let w := emit .init w
  let w := log.info "========================================" w
  let w := log.info (cfg.PLUGIN_NAME ++ " v" ++ cfg.PLUGIN_VERSION) w
  let w := log.info ("Author: " ++ cfg.PLUGIN_AUTHOR) w
  let w := log.info "========================================" w
  let w := emit .getMessagingInterface w
  match host.messagingInterface with
  | none => (false, log.error "Failed to register message listener" w)
  | some registered =>
    let w := emit .registerListener w
    if registered then
      (true, log.info "Plugin loaded successfully" w)
    else
      (false, log.error "Failed to register message listener" w)

/-! ## Concrete hosts and records used in the examples -/

/-- The enumerator values of SKSE's `MessagingInterface`. -/
def skseKinds : MessageType :=
  ⟨8, 0, 2, 3, 7, 1⟩

/-- A host in which nothing resolves and no interface is available. -/
def emptyHost : Host where
  messagingInterface := none
  scriptEventSource := false
  handleGet := fun _ => none
  asActor := fun _ => none
  getName := fun _ => ""
  isDead := fun _ => false
  lookupByID := fun _ => none
  lookupActorByID := fun _ => none
  lookupByEditorID := fun _ => none
  player := none

/-- A small populated host.  Handles 1, 2, 3 resolve to references 11, 12, 13;
11 and 12 are actors (named Bandit and Lydia, Lydia being dead), 13 is a door.
Form 20 (0x14) is the actor 11 and also the player, form 30 is the item 31 named
Iron Sword, and `IronSword` is its editor name.  Every interface is available. -/
def demoHost : Host where
  messagingInterface := some true
  scriptEventSource := true
  handleGet := fun h => if h = 1 then some 11 else if h = 2 then some 12
    else if h = 3 then some 13 else none
  asActor := fun r => if r = 11 then some 11 else if r = 12 then some 12 else none
  getName := fun o => if o = 11 then "Bandit" else if o = 12 then "Lydia"
    else if o = 13 then "Door" else if o = 31 then "Iron Sword" else ""
  isDead := fun a => decide (a = 12)
  lookupByID := fun f => if f = 20 then some 11 else if f = 30 then some 31 else none
  lookupActorByID := fun f => if f = 20 then some 11 else none
  lookupByEditorID := fun n => if n = "IronSword" then some 31 else none
  player := some 11

/-- The strings of a generated project. -/
def demoStrings : PluginStrings := ⟨"MyPlugin", "1.0.0", "Author"⟩


/-! ## Formatting lemmas -/

/-- Reading a digit character back gives the digit. -/
theorem hexValue_hexDigitUpper (d : Nat) (h : d < 16) : hexValue (hexDigitUpper d) = d := by
  interval_cases d <;> rfl

/-- A digit below sixteen is rendered as one of `0123456789ABCDEF`. -/
theorem isUpperHexDigit_hexDigitUpper (d : Nat) (h : d < 16) :
    isUpperHexDigit (hexDigitUpper d) = true := by
  interval_cases d <;> rfl

/-- A number below `16 ^ k` has at most `k` hexadecimal digits. -/
theorem hexUpperCore_length (fuel : Nat) :
    ∀ (n k : Nat) (acc : List Char), 1 ≤ k → n < 16 ^ k →
      (hexUpperCore fuel n acc).length ≤ k + acc.length := by
  induction fuel with
  | zero => intro n k acc _ _; simp [hexUpperCore]
  | succ fuel ih =>
    intro n k acc hk hn
    unfold hexUpperCore
    split
    · simp; omega
    · rename_i hne
      have h16 : 16 ≤ n := by omega
      obtain ⟨j, rfl⟩ : ∃ j, k = j + 1 := ⟨k - 1, by omega⟩
      have hj : 1 ≤ j := by
        rcases Nat.eq_zero_or_pos j with h0 | h0
        · subst h0; simp at hn; omega
        · exact h0
      have hdiv : n / 16 < 16 ^ j := by
        rw [Nat.div_lt_iff_lt_mul (by decide)]
        rw [pow_succ] at hn
        exact hn
      have := ih (n / 16) j (hexDigitUpper (n % 16) :: acc) hj hdiv
      simp at this
      omega

/-- Every character the digit loop produces is an upper-case hexadecimal digit. -/
theorem hexUpperCore_all (fuel : Nat) :
    ∀ (n : Nat) (acc : List Char), (∀ c ∈ acc, isUpperHexDigit c = true) →
      ∀ c ∈ hexUpperCore fuel n acc, isUpperHexDigit c = true := by
  induction fuel with
  | zero => intro n acc h; simpa [hexUpperCore] using h
  | succ fuel ih =>
    intro n acc h
    have hd : isUpperHexDigit (hexDigitUpper (n % 16)) = true :=
      isUpperHexDigit_hexDigitUpper _ (Nat.mod_lt _ (by decide))
    have hacc : ∀ c ∈ hexDigitUpper (n % 16) :: acc, isUpperHexDigit c = true := by
      intro c hc
      rcases List.mem_cons.mp hc with rfl | hc
      · exact hd
      · exact h c hc
    unfold hexUpperCore
    split
    · exact hacc
    · exact ih _ _ hacc

/-- With enough fuel the digits produced read back as the number. -/
theorem hexUpperCore_value (fuel : Nat) :
    ∀ (n : Nat) (acc : List Char), n < fuel →
      (hexUpperCore fuel n acc).foldl (fun a c => a * 16 + hexValue c) 0
        = acc.foldl (fun a c => a * 16 + hexValue c) n := by
  induction fuel with
  | zero => intro n acc h; omega
  | succ fuel ih =>
    intro n acc h
    have hv : hexValue (hexDigitUpper (n % 16)) = n % 16 :=
      hexValue_hexDigitUpper _ (Nat.mod_lt _ (by decide))
    unfold hexUpperCore
    split
    · rename_i h0
      simp only [List.foldl_cons, hv]
      congr 1
      omega
    · rename_i hne
      rw [ih (n / 16) _ (by omega)]
      simp only [List.foldl_cons, hv]
      congr 1
      omega

/-- Padding with `0` on the left does not change the value read back. -/
theorem parseHex_leftpad (k : Nat) (cs : List Char) :
    parseHex (List.leftpad k '0' cs) = parseHex cs := by
  unfold parseHex List.leftpad
  rw [List.foldl_append]
  congr 1
  generalize k - cs.length = m
  induction m with
  | zero => rfl
  | succ m ih => rw [List.replicate_succ, List.foldl_cons]; exact ih

/-- A 32-bit value is rendered by `{:08X}` as exactly eight characters. -/
theorem fmt08X_length (n : Nat) (h : n < 2 ^ 32) : (fmt08X n).length = 8 := by
  have hlen := hexUpperCore_length (n + 1) n 8 [] (by decide) (by simpa using h)
  simp only [List.length_nil] at hlen
  show (List.leftpad 8 '0' (fmtUpperHex n)).length = 8
  rw [List.leftpad_length]
  unfold fmtUpperHex
  omega

/-- Every character of a `{:08X}` rendering is an upper-case hexadecimal digit. -/
theorem fmt08X_all (n : Nat) : ∀ c ∈ (fmt08X n).data, isUpperHexDigit c = true := by
  intro c hc
  have hc : c ∈ List.replicate (8 - (fmtUpperHex n).length) '0' ++ fmtUpperHex n := hc
  rcases List.mem_append.mp hc with h | h
  · rw [(List.mem_replicate.mp h).2]; rfl
  · exact hexUpperCore_all _ _ [] (by simp) c h

/-- A `{:08X}` rendering reads back as the number rendered. -/
theorem parseHex_fmt08X (n : Nat) : parseHex (fmt08X n).data = n := by
  show parseHex (List.leftpad 8 '0' (fmtUpperHex n)) = n
  rw [parseHex_leftpad]
  unfold parseHex fmtUpperHex
  rw [hexUpperCore_value _ _ _ (Nat.lt_succ_self n)]
  rfl


/-! ## Trace lemmas -/

/-- Every `MessageHandler` call except one for `kDataLoaded` made while the event
source is available leaves the number of `AddEventSink` calls as it was; that one
adds one call for each sink. -/
theorem sinkRegistrations_MessageHandler (K : MessageType) (host : Host) (type : Nat)
    (w : World) (s : Sink) :
    sinkRegistrations s (MessageHandler K host type w)
      = sinkRegistrations s w
        + (if type = K.kDataLoaded ∧ host.scriptEventSource = true then 1 else 0) := by
  unfold MessageHandler
  by_cases h1 : type = K.kDataLoaded
  · by_cases h2 : host.scriptEventSource = true
    · cases s <;>
        simp [h1, h2, InitializeEventHandlers, emit, log.info, sinkRegistrations,
          List.count_append]
    · simp [h1, h2, InitializeEventHandlers, emit, log.info, log.error, sinkRegistrations,
        List.count_append]
  · simp only [h1, if_false, false_and, Nat.add_zero]
    split_ifs <;> simp [emit, log.info, sinkRegistrations, List.count_append]

/-- Along a sequence of messages each sink gains one `AddEventSink` call per
`kDataLoaded` when the event source is available, and none otherwise. -/
theorem sinkRegistrations_deliver (K : MessageType) (host : Host) (s : Sink)
    (messages : List Nat) :
    ∀ w : World, sinkRegistrations s (deliver K host messages w)
      = sinkRegistrations s w
        + (if host.scriptEventSource = true then messages.count K.kDataLoaded else 0) := by
  induction messages with
  | nil => intro w; simp [deliver]
  | cons type rest ih =>
    intro w
    have step : deliver K host (type :: rest) w
        = deliver K host rest (MessageHandler K host type w) := rfl
    rw [step, ih, sinkRegistrations_MessageHandler, List.count_cons]
    by_cases h1 : type = K.kDataLoaded <;> by_cases h2 : host.scriptEventSource = true <;>
      simp [h1, h2]
    omega

/-- Loading makes no `AddEventSink` call. -/
theorem sinkRegistrations_SKSEPlugin_Load (cfg : PluginStrings) (host : Host) (w : World)
    (s : Sink) :
    sinkRegistrations s (SKSEPlugin_Load cfg host w).2 = sinkRegistrations s w := by
  unfold SKSEPlugin_Load
  rcases h : host.messagingInterface with _ | b
  · simp [emit, log.info, log.error, sinkRegistrations, List.count_append]
  · cases b <;> simp [emit, log.info, log.error, sinkRegistrations, List.count_append]

/-! ## Lifecycle dispatcher and load -/

/-- C2: a message whose kind is none of the six known ones leaves the whole trace
as it was: `MessageHandler` returns, and adds no `AddEventSink` call, no log line
and no other effect. -/
theorem C2_unknown_kind_ignored (K : MessageType) (host : Host) (type : Nat) (w : World)
    (hkind : type ∉ knownKinds K) :
    MessageHandler K host type w = w
      ∧ logOf (MessageHandler K host type w) = logOf w
      ∧ registeredSinks (MessageHandler K host type w) = registeredSinks w := by
  have h : MessageHandler K host type w = w := by
    simp only [knownKinds, List.mem_cons, List.mem_singleton, List.not_mem_nil, or_false,
      not_or] at hkind
    obtain ⟨h1, h2, h3, h4, h5, h6⟩ := hkind
    simp [MessageHandler, h1, h2, h3, h4, h5, h6]
  rw [h]
  exact ⟨rfl, rfl, rfl⟩

/-- Witness for C2: kind 4 (`kSaveGame` in SKSE) is not one of the six. -/
theorem C2_unknown_kind_ignored_witness :
    MessageHandler skseKinds demoHost 4 [.init] = [.init]
      ∧ logOf (MessageHandler skseKinds demoHost 4 [.init]) = logOf [.init]
      ∧ registeredSinks (MessageHandler skseKinds demoHost 4 [.init])
        = registeredSinks [.init] :=
  C2_unknown_kind_ignored skseKinds demoHost 4 [.init] (by decide)

/-- C3: load registers no sink, a message other than `DataLoaded` never changes the
number of registered sinks, and so along every sequence of messages without a
`DataLoaded`, delivered after load from a trace without sinks, the number of
registered sinks is zero at every point. -/
theorem C3_no_sink_before_DataLoaded (cfg : PluginStrings) (K : MessageType) (host : Host)
    (messages : List Nat) (w : World) (hw : registeredSinks w = 0)
    (hmsg : ∀ m ∈ messages, m ≠ K.kDataLoaded) :
    registeredSinks (SKSEPlugin_Load cfg host w).2 = 0
      ∧ (∀ n : Nat,
          registeredSinks (deliver K host (messages.take n) (SKSEPlugin_Load cfg host w).2) = 0)
      ∧ registeredSinks (deliver K host messages (SKSEPlugin_Load cfg host w).2) = 0
      ∧ (∀ (type : Nat) (v : World),
          registeredSinks (MessageHandler K host type v) ≠ registeredSinks v →
            type = K.kDataLoaded) := by
  have hload : registeredSinks (SKSEPlugin_Load cfg host w).2 = 0 := by
    unfold registeredSinks at hw ⊢
    rw [sinkRegistrations_SKSEPlugin_Load, sinkRegistrations_SKSEPlugin_Load]
    exact hw
  have hseq : ∀ l : List Nat, (∀ m ∈ l, m ≠ K.kDataLoaded) →
      registeredSinks (deliver K host l (SKSEPlugin_Load cfg host w).2) = 0 := by
    intro l hl
    have hcount : l.count K.kDataLoaded = 0 :=
      List.count_eq_zero.mpr (fun hmem => hl _ hmem rfl)
    unfold registeredSinks at hload ⊢
    rw [sinkRegistrations_deliver, sinkRegistrations_deliver, hcount]
    simpa using hload
  refine ⟨hload, ?_, hseq messages hmsg, ?_⟩
  · intro n
    exact hseq _ (fun m hm => hmsg m (List.mem_of_mem_take hm))
  · intro type v hne
    by_contra hk
    apply hne
    unfold registeredSinks
    rw [sinkRegistrations_MessageHandler, sinkRegistrations_MessageHandler]
    simp [hk]

/-- Witness for C3: every other kind, known and unknown, delivered after load. -/
theorem C3_no_sink_before_DataLoaded_witness :
    registeredSinks (SKSEPlugin_Load demoStrings demoHost []).2 = 0
      ∧ (∀ n : Nat,
          registeredSinks (deliver skseKinds demoHost (List.take n [0, 1, 2, 3, 7, 4, 99])
            (SKSEPlugin_Load demoStrings demoHost []).2) = 0)
      ∧ registeredSinks (deliver skseKinds demoHost [0, 1, 2, 3, 7, 4, 99]
          (SKSEPlugin_Load demoStrings demoHost []).2) = 0
      ∧ (∀ (type : Nat) (v : World),
          registeredSinks (MessageHandler skseKinds demoHost type v) ≠ registeredSinks v →
            type = skseKinds.kDataLoaded) :=
  C3_no_sink_before_DataLoaded demoStrings skseKinds demoHost [0, 1, 2, 3, 7, 4, 99] []
    (by decide) (by decide)

/-- C4: `SKSEPlugin_Load` returns true exactly when the messaging interface is
available and `RegisterListener` succeeds; it logs one error when it returns false
and none when it returns true; it calls `RegisterListener` once when the interface
is available and not at all when it is not; it makes no `AddEventSink` call. -/
theorem C4_load_result (cfg : PluginStrings) (host : Host) (w : World) :
    ((SKSEPlugin_Load cfg host w).1 = true ↔ host.messagingInterface = some true)
      ∧ ((SKSEPlugin_Load cfg host w).1 = false →
          levelCount .error (SKSEPlugin_Load cfg host w).2 = levelCount .error w + 1
            ∧ (logOf (SKSEPlugin_Load cfg host w).2).getLast?
              = some ⟨.error, "Failed to register message listener"⟩)
      ∧ ((SKSEPlugin_Load cfg host w).1 = true →
          levelCount .error (SKSEPlugin_Load cfg host w).2 = levelCount .error w)
      ∧ listenerRegistrations (SKSEPlugin_Load cfg host w).2
          = listenerRegistrations w + (if host.messagingInterface = none then 0 else 1)
      ∧ (∀ s : Sink, sinkRegistrations s (SKSEPlugin_Load cfg host w).2
          = sinkRegistrations s w) := by
  refine ⟨?_, ?_, ?_, ?_, fun s => sinkRegistrations_SKSEPlugin_Load cfg host w s⟩
  all_goals
    unfold SKSEPlugin_Load
    rcases h : host.messagingInterface with _ | b
    · simp [emit, log.info, log.error, logOf, levelCount, listenerRegistrations,
        List.filterMap_append, List.count_append, List.countP_append]
    · cases b <;>
        simp [emit, log.info, log.error, logOf, levelCount, listenerRegistrations,
          List.filterMap_append, List.count_append, List.countP_append]

/-! ## Event sinks -/

/-- The hit sink answers `kContinue` on every path. -/
theorem hit_ProcessEvent_continue {D : Type} (host : Host) (fmtDamage : D → String)
    (hit : Option (TESHitEvent D)) (w : World) :
    (OnHitEventHandler.ProcessEvent host fmtDamage hit w).1 = .kContinue := by
  unfold OnHitEventHandler.ProcessEvent
  cases hit with
  | none => rfl
  | some ev =>
    dsimp only
    cases host.handleGet ev.target with
    | none => rfl
    | some target =>
      dsimp only
      cases host.asActor target with
      | none => rfl
      | some targetActor =>
        dsimp only
        cases host.handleGet ev.cause with
        | none => rfl
        | some aggressor =>
          dsimp only
          cases host.asActor aggressor with
          | none => rfl
          | some aggressorActor =>
            dsimp only
            cases host.isDead targetActor <;> rfl

/-- The equip sink answers `kContinue` on every path. -/
theorem equip_ProcessEvent_continue (host : Host) (equip : Option TESEquipEvent)
    (w : World) : (OnEquipEventHandler.ProcessEvent host equip w).1 = .kContinue := by
  unfold OnEquipEventHandler.ProcessEvent
  cases equip with
  | none => rfl
  | some ev =>
    dsimp only
    cases host.lookupActorByID ev.actor with
    | none => rfl
    | some actor =>
      dsimp only
      cases host.lookupByID ev.baseObject <;> rfl

/-- C5: when the hit record is absent, or its target handle does not resolve, or
its cause handle does not resolve, `ProcessEvent` returns `kContinue`, adds no log
line and makes no `GetName` or `IsDead` call; an absent record adds no effect at all.
For a present record the whole trace is fixed on each such path: a target miss adds
the one `get` on the target handle; a target that resolves to a non-actor adds that
`get` and the one cast; a target actor with a cause miss adds the `get`, the cast
and the one `get` on the cause handle. Nothing else is done. -/
theorem C5_unresolved_hit_no_action {D : Type} (host : Host) (fmtDamage : D → String)
    (event : Option (TESHitEvent D)) (w : World)
    (h : event = none ∨ ∃ ev, event = some ev
      ∧ (host.handleGet ev.target = none ∨ host.handleGet ev.cause = none)) :
    (OnHitEventHandler.ProcessEvent host fmtDamage event w).1 = .kContinue
      ∧ logOf (OnHitEventHandler.ProcessEvent host fmtDamage event w).2 = logOf w
      ∧ (OnHitEventHandler.ProcessEvent host fmtDamage event w).2.filter isActorQuery
        = w.filter isActorQuery
      ∧ (event = none → (OnHitEventHandler.ProcessEvent host fmtDamage event w).2 = w)
      ∧ (∀ ev : TESHitEvent D, event = some ev →
          (host.handleGet ev.target = none →
            OnHitEventHandler.ProcessEvent host fmtDamage event w
              = (.kContinue, w ++ [.handleGet ev.target]))
          ∧ (∀ target : Nat, host.handleGet ev.target = some target →
              host.asActor target = none →
              OnHitEventHandler.ProcessEvent host fmtDamage event w
                = (.kContinue, w ++ [.handleGet ev.target, .asActor target]))
          ∧ (∀ target targetActor : Nat, host.handleGet ev.target = some target →
              host.asActor target = some targetActor →
              OnHitEventHandler.ProcessEvent host fmtDamage event w
                = (.kContinue,
                    w ++ [.handleGet ev.target, .asActor target, .handleGet ev.cause]))) := by
  rcases h with rfl | ⟨ev, rfl, h⟩
  · simp [OnHitEventHandler.ProcessEvent]
  · have hexact : ∀ ev' : TESHitEvent D, some ev = some ev' →
        (host.handleGet ev'.target = none →
          OnHitEventHandler.ProcessEvent host fmtDamage (some ev) w
            = (.kContinue, w ++ [.handleGet ev'.target]))
        ∧ (∀ target : Nat, host.handleGet ev'.target = some target →
            host.asActor target = none →
            OnHitEventHandler.ProcessEvent host fmtDamage (some ev) w
              = (.kContinue, w ++ [.handleGet ev'.target, .asActor target]))
        ∧ (∀ target targetActor : Nat, host.handleGet ev'.target = some target →
            host.asActor target = some targetActor →
            OnHitEventHandler.ProcessEvent host fmtDamage (some ev) w
              = (.kContinue,
                  w ++ [.handleGet ev'.target, .asActor target, .handleGet ev'.cause])) := by
      intro ev' hev
      cases hev
      refine ⟨?_, ?_, ?_⟩
      · intro ht
        simp [OnHitEventHandler.ProcessEvent, ht, emit]
      · intro target ht hta
        simp [OnHitEventHandler.ProcessEvent, ht, hta, emit]
      · intro target targetActor ht hta
        have hc : host.handleGet ev.cause = none := by
          rcases h with h | h
          · rw [ht] at h; cases h
          · exact h
        simp [OnHitEventHandler.ProcessEvent, ht, hta, hc, emit]
    refine ⟨?_, ?_, ?_, ?_, hexact⟩
    all_goals
      unfold OnHitEventHandler.ProcessEvent
      rcases ht : host.handleGet ev.target with _ | target
      · simp [ht, emit, logOf, isActorQuery, List.filterMap_append, List.filter_append]
      · rcases hta : host.asActor target with _ | targetActor
        · simp [ht, hta, emit, logOf, isActorQuery, List.filterMap_append,
            List.filter_append]
        · have hc : host.handleGet ev.cause = none := by
            rcases h with h | h
            · rw [ht] at h; cases h
            · exact h
          simp [ht, hta, hc, emit, logOf, isActorQuery, List.filterMap_append,
            List.filter_append]

/-- Witness for C5: an absent record; a record whose target handle (9) does not
resolve; a record whose target is an actor and whose cause handle (9) does not
resolve; a record whose target is a door and whose cause handle does not resolve. -/
theorem C5_unresolved_hit_no_action_witness :
    ((OnHitEventHandler.ProcessEvent demoHost Nat.repr none [.init]).1 = .kContinue
      ∧ logOf (OnHitEventHandler.ProcessEvent demoHost Nat.repr none [.init]).2 = logOf [.init]
      ∧ (OnHitEventHandler.ProcessEvent demoHost Nat.repr none [.init]).2.filter isActorQuery
        = [Effect.init].filter isActorQuery
      ∧ ((none : Option (TESHitEvent Nat)) = none →
          (OnHitEventHandler.ProcessEvent demoHost Nat.repr none [.init]).2 = [.init]))
    ∧ ((OnHitEventHandler.ProcessEvent demoHost Nat.repr (some ⟨9, 1, 25⟩) []).1 = .kContinue
      ∧ logOf (OnHitEventHandler.ProcessEvent demoHost Nat.repr (some ⟨9, 1, 25⟩) []).2
        = logOf [])
    ∧ ((OnHitEventHandler.ProcessEvent demoHost Nat.repr (some ⟨2, 9, 25⟩) []).1 = .kContinue
      ∧ logOf (OnHitEventHandler.ProcessEvent demoHost Nat.repr (some ⟨2, 9, 25⟩) []).2
        = logOf [])
    ∧ OnHitEventHandler.ProcessEvent demoHost Nat.repr (some ⟨9, 1, 25⟩) [.init]
        = (.kContinue, [.init] ++ [.handleGet 9])
    ∧ OnHitEventHandler.ProcessEvent demoHost Nat.repr (some ⟨2, 9, 25⟩) [.init]
        = (.kContinue, [.init] ++ [.handleGet 2, .asActor 12, .handleGet 9])
    ∧ OnHitEventHandler.ProcessEvent demoHost Nat.repr (some ⟨3, 9, 25⟩) [.init]
        = (.kContinue, [.init] ++ [.handleGet 3, .asActor 13]) :=
  ⟨⟨(C5_unresolved_hit_no_action demoHost Nat.repr none [.init] (Or.inl rfl)).1,
      (C5_unresolved_hit_no_action demoHost Nat.repr none [.init] (Or.inl rfl)).2.1,
      (C5_unresolved_hit_no_action demoHost Nat.repr none [.init] (Or.inl rfl)).2.2.1,
      (C5_unresolved_hit_no_action demoHost Nat.repr none [.init] (Or.inl rfl)).2.2.2.1⟩,
    ⟨(C5_unresolved_hit_no_action demoHost Nat.repr (some ⟨9, 1, 25⟩) []
        (Or.inr ⟨⟨9, 1, 25⟩, rfl, Or.inl rfl⟩)).1,
      (C5_unresolved_hit_no_action demoHost Nat.repr (some ⟨9, 1, 25⟩) []
        (Or.inr ⟨⟨9, 1, 25⟩, rfl, Or.inl rfl⟩)).2.1⟩,
    ⟨(C5_unresolved_hit_no_action demoHost Nat.repr (some ⟨2, 9, 25⟩) []
        (Or.inr ⟨⟨2, 9, 25⟩, rfl, Or.inr rfl⟩)).1,
      (C5_unresolved_hit_no_action demoHost Nat.repr (some ⟨2, 9, 25⟩) []
        (Or.inr ⟨⟨2, 9, 25⟩, rfl, Or.inr rfl⟩)).2.1⟩,
    ((C5_unresolved_hit_no_action demoHost Nat.repr (some ⟨9, 1, 25⟩) [.init]
        (Or.inr ⟨⟨9, 1, 25⟩, rfl, Or.inl rfl⟩)).2.2.2.2 ⟨9, 1, 25⟩ rfl).1 rfl,
    ((C5_unresolved_hit_no_action demoHost Nat.repr (some ⟨2, 9, 25⟩) [.init]
        (Or.inr ⟨⟨2, 9, 25⟩, rfl, Or.inr rfl⟩)).2.2.2.2 ⟨2, 9, 25⟩ rfl).2.2 12 12 rfl rfl,
    ((C5_unresolved_hit_no_action demoHost Nat.repr (some ⟨3, 9, 25⟩) [.init]
        (Or.inr ⟨⟨3, 9, 25⟩, rfl, Or.inr rfl⟩)).2.2.2.2 ⟨3, 9, 25⟩ rfl).2.1 13 rfl rfl⟩

/-- C6: on every input both sinks return `kContinue`, never `kStop`, and an absent
record is answered at once, with no effect. -/
theorem C6_always_continue {D : Type} (host : Host) (fmtDamage : D → String)
    (hit : Option (TESHitEvent D)) (equip : Option TESEquipEvent) (w : World) :
    (OnHitEventHandler.ProcessEvent host fmtDamage hit w).1 = .kContinue
      ∧ (OnHitEventHandler.ProcessEvent host fmtDamage hit w).1 ≠ .kStop
      ∧ (OnEquipEventHandler.ProcessEvent host equip w).1 = .kContinue
      ∧ (OnEquipEventHandler.ProcessEvent host equip w).1 ≠ .kStop
      ∧ OnHitEventHandler.ProcessEvent host fmtDamage (none : Option (TESHitEvent D)) w
        = (.kContinue, w)
      ∧ OnEquipEventHandler.ProcessEvent host none w = (.kContinue, w) := by
  have hhit := hit_ProcessEvent_continue host fmtDamage hit w
  have hequip := equip_ProcessEvent_continue host equip w
  refine ⟨hhit, ?_, hequip, ?_, rfl, rfl⟩
  · rw [hhit]; decide
  · rw [hequip]; decide

/-! ## Handle resolvers -/

/-- C7: `LookupFormByID` on an identifier the host does not resolve returns null
and logs exactly one warning, `Form not found: ` followed by the identifier as
eight upper-case hexadecimal digits (which read back as the identifier);
`LookupFormByEditorID` on a name the host does not resolve returns null and logs
exactly one warning, `Form not found: ` followed by the name; on a key that
resolves each returns the host's object and logs nothing. -/
theorem C7_lookup_miss_and_hit (host : Host) (formID : Nat) (editorID : String) (w : World)
    (hid : formID < 2 ^ 32) :
    (host.lookupByID formID = none →
        (LookupFormByID host formID w).1 = none
          ∧ logOf (LookupFormByID host formID w).2
            = logOf w ++ [⟨.warn, "Form not found: " ++ fmt08X formID⟩])
      ∧ ((fmt08X formID).length = 8
          ∧ (∀ c ∈ (fmt08X formID).data, isUpperHexDigit c = true)
          ∧ parseHex (fmt08X formID).data = formID)
      ∧ (∀ form : Nat, host.lookupByID formID = some form →
          (LookupFormByID host formID w).1 = some form
            ∧ logOf (LookupFormByID host formID w).2 = logOf w)
      ∧ (host.lookupByEditorID editorID = none →
          (LookupFormByEditorID host editorID w).1 = none
            ∧ logOf (LookupFormByEditorID host editorID w).2
              = logOf w ++ [⟨.warn, "Form not found: " ++ editorID⟩])
      ∧ (∀ form : Nat, host.lookupByEditorID editorID = some form →
          (LookupFormByEditorID host editorID w).1 = some form
            ∧ logOf (LookupFormByEditorID host editorID w).2 = logOf w) := by
  refine ⟨?_, ⟨fmt08X_length formID hid, fmt08X_all formID, parseHex_fmt08X formID⟩,
    ?_, ?_, ?_⟩
  · intro h
    simp [LookupFormByID, h, emit, log.warn, logOf, List.filterMap_append]
  · intro form h
    simp [LookupFormByID, h, emit, logOf, List.filterMap_append]
  · intro h
    simp [LookupFormByEditorID, h, emit, log.warn, logOf, List.filterMap_append]
  · intro form h
    simp [LookupFormByEditorID, h, emit, logOf, List.filterMap_append]

/-- Witness for C7: identifier 0xDEADBEEF and name `NoSuchForm` miss; identifier
0x1E and name `IronSword` resolve to the item 31. -/
theorem C7_lookup_miss_and_hit_witness :
    ((LookupFormByID demoHost 0xDEADBEEF []).1 = none
        ∧ logOf (LookupFormByID demoHost 0xDEADBEEF []).2
          = logOf [] ++ [⟨.warn, "Form not found: " ++ fmt08X 0xDEADBEEF⟩])
      ∧ fmt08X 0xDEADBEEF = "DEADBEEF"
      ∧ (fmt08X 0xDEADBEEF).length = 8
      ∧ ((LookupFormByID demoHost 0x1E []).1 = some 31
        ∧ logOf (LookupFormByID demoHost 0x1E []).2 = logOf [])
      ∧ ((LookupFormByEditorID demoHost "NoSuchForm" []).1 = none
        ∧ logOf (LookupFormByEditorID demoHost "NoSuchForm" []).2
          = logOf [] ++ [⟨.warn, "Form not found: " ++ "NoSuchForm"⟩])
      ∧ ((LookupFormByEditorID demoHost "IronSword" []).1 = some 31
        ∧ logOf (LookupFormByEditorID demoHost "IronSword" []).2 = logOf []) :=
  ⟨(C7_lookup_miss_and_hit demoHost 0xDEADBEEF "NoSuchForm" [] (by decide)).1 rfl,
    by decide,
    (C7_lookup_miss_and_hit demoHost 0xDEADBEEF "NoSuchForm" [] (by decide)).2.1.1,
    (C7_lookup_miss_and_hit demoHost 0x1E "IronSword" [] (by decide)).2.2.1 31 rfl,
    (C7_lookup_miss_and_hit demoHost 0xDEADBEEF "NoSuchForm" [] (by decide)).2.2.2.1
      (by decide),
    (C7_lookup_miss_and_hit demoHost 0x1E "IronSword" [] (by decide)).2.2.2.2 31
      (by decide)⟩

/-- C8, as stated, fails: with the player singleton absent `GetPlayer` returns null
and its one log line is at error level, not at warning level. -/
theorem C8_missing_player_logged_as_error :
    emptyHost.player = none
      ∧ (GetPlayer emptyHost []).1 = none
      ∧ logOf (GetPlayer emptyHost []).2 = [⟨.error, "Failed to get player character"⟩]
      ∧ levelCount .warn (GetPlayer emptyHost []).2 = 0
      ∧ levelCount .error (GetPlayer emptyHost []).2 = 1 := by
  decide

/-- C8, amended: with the player singleton absent `GetPlayer` returns null and logs
exactly one line, at error level; with the player present it returns that
reference and logs nothing. -/
theorem C8_GetPlayer (host : Host) (w : World) :
    (host.player = none →
        (GetPlayer host w).1 = none
          ∧ logOf (GetPlayer host w).2
            = logOf w ++ [⟨.error, "Failed to get player character"⟩])
      ∧ (∀ player : Nat, host.player = some player →
          (GetPlayer host w).1 = some player ∧ logOf (GetPlayer host w).2 = logOf w) := by
  refine ⟨?_, ?_⟩
  · intro h
    simp [GetPlayer, h, emit, log.error, logOf, List.filterMap_append]
  · intro player h
    simp [GetPlayer, h, emit, logOf, List.filterMap_append]

/-- Witness for C8 amended: a host without a player and a host with one. -/
theorem C8_GetPlayer_witness :
    ((GetPlayer emptyHost []).1 = none
        ∧ logOf (GetPlayer emptyHost []).2
          = logOf [] ++ [⟨.error, "Failed to get player character"⟩])
      ∧ ((GetPlayer demoHost []).1 = some 11 ∧ logOf (GetPlayer demoHost []).2 = logOf []) :=
  ⟨(C8_GetPlayer emptyHost []).1 rfl, (C8_GetPlayer demoHost []).2 11 rfl⟩

/-! ## The hit and equip sinks, resolved records -/

/-- C9, as stated, fails: a record whose target handle resolves (to a door, which
is no actor) and whose cause handle resolves makes the sink log nothing. -/
theorem C9_resolved_non_actor_target_logs_nothing :
    demoHost.handleGet 3 = some 13
      ∧ demoHost.handleGet 1 = some 11
      ∧ (OnHitEventHandler.ProcessEvent demoHost Nat.repr (some ⟨3, 1, 25⟩) []).1 = .kContinue
      ∧ logOf (OnHitEventHandler.ProcessEvent demoHost Nat.repr (some ⟨3, 1, 25⟩) []).2 = [] := by
  decide

/-- C9, amended: for a present hit record whose target and cause handles both
resolve, `ProcessEvent` returns `kContinue`; when both references are actors it
logs the hit line (cause name, target name, damage) and then the death line exactly
when the target is dead, so `[hit]` or `[hit, death]`; when the target or the cause
is not an actor it logs nothing. -/
theorem C9_hit_between_actors_logged {D : Type} (host : Host) (fmtDamage : D → String)
    (ev : TESHitEvent D) (w : World) (target aggressor : Nat)
    (ht : host.handleGet ev.target = some target)
    (hc : host.handleGet ev.cause = some aggressor) :
    (OnHitEventHandler.ProcessEvent host fmtDamage (some ev) w).1 = .kContinue
      ∧ (∀ targetActor aggressorActor : Nat,
          host.asActor target = some targetActor →
          host.asActor aggressor = some aggressorActor →
          (host.isDead targetActor = false →
            logOf (OnHitEventHandler.ProcessEvent host fmtDamage (some ev) w).2
              = logOf w ++ [⟨.info, "OnHit: " ++ host.getName aggressorActor ++ " hit "
                  ++ host.getName targetActor ++ " for " ++ fmtDamage ev.damageAmount
                  ++ " damage"⟩])
          ∧ (host.isDead targetActor = true →
            logOf (OnHitEventHandler.ProcessEvent host fmtDamage (some ev) w).2
              = logOf w ++ [⟨.info, "OnHit: " ++ host.getName aggressorActor ++ " hit "
                  ++ host.getName targetActor ++ " for " ++ fmtDamage ev.damageAmount
                  ++ " damage"⟩,
                ⟨.info, host.getName targetActor ++ " is dead"⟩]))
      ∧ (host.asActor target = none ∨ host.asActor aggressor = none →
          logOf (OnHitEventHandler.ProcessEvent host fmtDamage (some ev) w).2 = logOf w) := by
  refine ⟨hit_ProcessEvent_continue host fmtDamage (some ev) w, ?_, ?_⟩
  · intro targetActor aggressorActor hta hca
    constructor
    · intro hd
      simp [OnHitEventHandler.ProcessEvent, ht, hc, hta, hca, hd, emit, log.info, logOf,
        List.filterMap_append]
    · intro hd
      simp [OnHitEventHandler.ProcessEvent, ht, hc, hta, hca, hd, emit, log.info, logOf,
        List.filterMap_append]
  · intro h
    rcases hta : host.asActor target with _ | targetActor
    · simp [OnHitEventHandler.ProcessEvent, ht, hta, emit, logOf, List.filterMap_append]
    · have hca : host.asActor aggressor = none := by
        rcases h with h | h
        · rw [hta] at h; cases h
        · exact h
      simp [OnHitEventHandler.ProcessEvent, ht, hc, hta, hca, emit, logOf,
        List.filterMap_append]

/-- Witness for C9 amended: Bandit hits Lydia, who is dead (two lines); Lydia hits
Bandit, who is alive (one line); Bandit hits the door (no line). -/
theorem C9_hit_between_actors_logged_witness :
    logOf (OnHitEventHandler.ProcessEvent demoHost Nat.repr (some ⟨2, 1, 25⟩) []).2
        = logOf [] ++ [⟨.info, "OnHit: " ++ demoHost.getName 11 ++ " hit "
            ++ demoHost.getName 12 ++ " for " ++ Nat.repr 25 ++ " damage"⟩,
          ⟨.info, demoHost.getName 12 ++ " is dead"⟩]
      ∧ logOf (OnHitEventHandler.ProcessEvent demoHost Nat.repr (some ⟨1, 2, 7⟩) []).2
        = logOf [] ++ [⟨.info, "OnHit: " ++ demoHost.getName 12 ++ " hit "
            ++ demoHost.getName 11 ++ " for " ++ Nat.repr 7 ++ " damage"⟩]
      ∧ logOf (OnHitEventHandler.ProcessEvent demoHost Nat.repr (some ⟨3, 1, 25⟩) []).2
        = logOf [] :=
  ⟨((C9_hit_between_actors_logged demoHost Nat.repr ⟨2, 1, 25⟩ [] 12 11 rfl rfl).2.1
      12 11 rfl rfl).2 rfl,
    ((C9_hit_between_actors_logged demoHost Nat.repr ⟨1, 2, 7⟩ [] 11 12 rfl rfl).2.1
      11 12 rfl rfl).1 rfl,
    (C9_hit_between_actors_logged demoHost Nat.repr ⟨3, 1, 25⟩ [] 13 11 rfl rfl).2.2
      (Or.inl rfl)⟩

/-- C10: for a present equip record the sink looks up the actor and then the item.
When the actor lookup misses it returns `kContinue` having made that one call only
(no log line, no item lookup); when the item lookup misses it returns `kContinue`
with no log line; when both resolve it logs the one line
`<actor name> equipped|unequipped <item name>` and returns `kContinue`. -/
theorem C10_equip_event (host : Host) (ev : TESEquipEvent) (w : World) :
    (host.lookupActorByID ev.actor = none →
        OnEquipEventHandler.ProcessEvent host (some ev) w
          = (.kContinue, w ++ [.lookupActorByID ev.actor]))
      ∧ (∀ actor : Nat, host.lookupActorByID ev.actor = some actor →
          host.lookupByID ev.baseObject = none →
          OnEquipEventHandler.ProcessEvent host (some ev) w
            = (.kContinue, w ++ [.lookupActorByID ev.actor, .lookupByID ev.baseObject]))
      ∧ (∀ actor item : Nat, host.lookupActorByID ev.actor = some actor →
          host.lookupByID ev.baseObject = some item →
          (OnEquipEventHandler.ProcessEvent host (some ev) w).1 = .kContinue
            ∧ logOf (OnEquipEventHandler.ProcessEvent host (some ev) w).2
              = logOf w ++ [⟨.info, host.getName actor ++ " "
                  ++ (if ev.equipped = true then "equipped" else "unequipped") ++ " "
                  ++ host.getName item⟩]
            ∧ (OnEquipEventHandler.ProcessEvent host (some ev) w).2.filter
                (fun e => isLookupByID e || e == .lookupActorByID ev.actor)
              = w.filter (fun e => isLookupByID e || e == .lookupActorByID ev.actor)
                ++ [.lookupActorByID ev.actor, .lookupByID ev.baseObject]) := by
  refine ⟨?_, ?_, ?_⟩
  · intro ha
    simp [OnEquipEventHandler.ProcessEvent, ha, emit]
  · intro actor ha hi
    simp [OnEquipEventHandler.ProcessEvent, ha, hi, emit]
  · intro actor item ha hi
    simp [OnEquipEventHandler.ProcessEvent, ha, hi, emit, log.info, logOf, isLookupByID,
      List.filterMap_append, List.filter_append]

/-- Witness for C10: the player equips and unequips the Iron Sword; an unknown
actor; a known actor with an unknown item. -/
theorem C10_equip_event_witness :
    logOf (OnEquipEventHandler.ProcessEvent demoHost (some ⟨20, 30, true⟩) []).2
        = logOf [] ++ [⟨.info, demoHost.getName 11 ++ " "
            ++ (if (⟨20, 30, true⟩ : TESEquipEvent).equipped = true then "equipped"
              else "unequipped") ++ " " ++ demoHost.getName 31⟩]
      ∧ logOf (OnEquipEventHandler.ProcessEvent demoHost (some ⟨20, 30, false⟩) []).2
        = logOf [] ++ [⟨.info, demoHost.getName 11 ++ " "
            ++ (if (⟨20, 30, false⟩ : TESEquipEvent).equipped = true then "equipped"
              else "unequipped") ++ " " ++ demoHost.getName 31⟩]
      ∧ OnEquipEventHandler.ProcessEvent demoHost (some ⟨77, 30, true⟩) []
        = (.kContinue, [] ++ [.lookupActorByID 77])
      ∧ OnEquipEventHandler.ProcessEvent demoHost (some ⟨20, 78, true⟩) []
        = (.kContinue, [] ++ [.lookupActorByID 20, .lookupByID 78]) :=
  ⟨((C10_equip_event demoHost ⟨20, 30, true⟩ []).2.2 11 31 rfl rfl).2.1,
    ((C10_equip_event demoHost ⟨20, 30, false⟩ []).2.2 11 31 rfl rfl).2.1,
    (C10_equip_event demoHost ⟨77, 30, true⟩ []).1 rfl,
    (C10_equip_event demoHost ⟨20, 78, true⟩ []).2.1 11 rfl rfl⟩

end SKSETemplate
